import Mathlib

/-!
# HWRouter: verification of the SCRAM-style login handshake

A shallow embedding of `src/hwrouter.py`. Byte strings are `List Nat`
(each entry a byte value), 32-bit words are `Nat` reduced modulo `2 ^ 32`
where overflow matters. The cryptographic primitives the source imports
from `hashlib` / `hmac` (SHA-256, HMAC-SHA256, PBKDF2-HMAC-SHA256) are
implemented here executably, following FIPS 180-4 / RFC 2104 / RFC 2898,
and validated below against the standard published test vectors.
-/

set_option maxRecDepth 100000

namespace HWRouter

/-- The constant `2 ^ 32`, the word modulus for SHA-256 arithmetic. -/
def w32 : Nat := 4294967296

/-- Right rotation of a 32-bit word. -/
def rotr (x n : Nat) : Nat := ((x >>> n) ||| (x <<< (32 - n))) % w32

/-- SHA-256 round constants (FIPS 180-4, section 4.2.2), in decimal. -/
def K : List Nat :=
  [1116352408, 1899447441, 3049323471, 3921009573, 961987163,
   1508970993, 2453635748, 2870763221, 3624381080, 310598401,
   607225278, 1426881987, 1925078388, 2162078206, 2614888103,
   3248222580, 3835390401, 4022224774, 264347078, 604807628,
   770255983, 1249150122, 1555081692, 1996064986, 2554220882,
   2821834349, 2952996808, 3210313671, 3336571891, 3584528711,
   113926993, 338241895, 666307205, 773529912, 1294757372,
   1396182291, 1695183700, 1986661051, 2177026350, 2456956037,
   2730485921, 2820302411, 3259730800, 3345764771, 3516065817,
   3600352804, 4094571909, 275423344, 430227734, 506948616,
   659060556, 883997877, 958139571, 1322822218, 1537002063,
   1747873779, 1955562222, 2024104815, 2227730452, 2361852424,
   2428436474, 2756734187, 3204031479, 3329325298]

/-- The eight-word SHA-256 working state. -/
structure Digest where
  h0 : Nat
  h1 : Nat
  h2 : Nat
  h3 : Nat
  h4 : Nat
  h5 : Nat
  h6 : Nat
  h7 : Nat

/-- SHA-256 initial hash value (FIPS 180-4, section 5.3.3), in decimal. -/
def initDigest : Digest :=
  ⟨1779033703, 3144134277, 1013904242, 2773480762,
   1359893119, 2600822924, 528734635, 1541459225⟩

/-- The SHA-256 choice function; complement is taken within 32 bits. -/
def ch (e f g : Nat) : Nat := (e &&& f) ^^^ (((w32 - 1) ^^^ e) &&& g)

/-- The SHA-256 majority function. -/
def maj (a b c : Nat) : Nat := (a &&& b) ^^^ (a &&& c) ^^^ (b &&& c)

/-- Big sigma-0. -/
def bigS0 (a : Nat) : Nat := rotr a 2 ^^^ rotr a 13 ^^^ rotr a 22

/-- Big sigma-1. -/
def bigS1 (e : Nat) : Nat := rotr e 6 ^^^ rotr e 11 ^^^ rotr e 25

/-- Small sigma-0, used in the message schedule. -/
def smallS0 (x : Nat) : Nat := rotr x 7 ^^^ rotr x 18 ^^^ (x >>> 3)

/-- Small sigma-1, used in the message schedule. -/
def smallS1 (x : Nat) : Nat := rotr x 17 ^^^ rotr x 19 ^^^ (x >>> 10)

/-- One SHA-256 round on the working state, with schedule word `wi` and
round constant `ki`. -/
def roundStep (st : Digest) (wi ki : Nat) : Digest :=
  let t1 := (st.h7 + bigS1 st.h4 + ch st.h4 st.h5 st.h6 + ki + wi) % w32
  let t2 := (bigS0 st.h0 + maj st.h0 st.h1 st.h2) % w32
  ⟨(t1 + t2) % w32, st.h0, st.h1, st.h2, (st.h3 + t1) % w32, st.h4, st.h5, st.h6⟩

/-- The sixteen big-endian 32-bit words of one 64-byte block. -/
def blockWords (block : List Nat) : List Nat :=
  (List.range 16).map fun i =>
    block.getD (4 * i) 0 * 16777216 + block.getD (4 * i + 1) 0 * 65536 +
    block.getD (4 * i + 2) 0 * 256 + block.getD (4 * i + 3) 0

/-- Schedule word `j` (for `16 ≤ j`) from the previous schedule words. -/
def nextW (ws : List Nat) (j : Nat) : Nat :=
  (ws.getD (j - 16) 0 + smallS0 (ws.getD (j - 15) 0) +
   ws.getD (j - 7) 0 + smallS1 (ws.getD (j - 2) 0)) % w32

/-- The full 64-word message schedule of one block. -/
def schedule (block : List Nat) : List Nat :=
  (List.range 48).foldl (fun ws i => ws ++ [nextW ws (i + 16)]) (blockWords block)

/-- SHA-256 compression of one 64-byte block into the state. -/
def compress (st : Digest) (block : List Nat) : Digest :=
  let ws := schedule block
  let f := (List.range 64).foldl
    (fun s i => roundStep s (ws.getD i 0) (K.getD i 0)) st
  ⟨(st.h0 + f.h0) % w32, (st.h1 + f.h1) % w32, (st.h2 + f.h2) % w32,
   (st.h3 + f.h3) % w32, (st.h4 + f.h4) % w32, (st.h5 + f.h5) % w32,
   (st.h6 + f.h6) % w32, (st.h7 + f.h7) % w32⟩

/-- Big-endian 4-byte serialization of a 32-bit word. -/
def wordBE (n : Nat) : List Nat :=
  [(n >>> 24) % 256, (n >>> 16) % 256, (n >>> 8) % 256, n % 256]

/-- Big-endian 8-byte serialization (the length field of the padding). -/
def be8 (n : Nat) : List Nat :=
  [(n >>> 56) % 256, (n >>> 48) % 256, (n >>> 40) % 256, (n >>> 32) % 256,
   (n >>> 24) % 256, (n >>> 16) % 256, (n >>> 8) % 256, n % 256]

/-- SHA-256 padding: `0x80`, zeros to 56 mod 64, then the bit length. -/
def pad (msg : List Nat) : List Nat :=
  msg ++ [128] ++ List.replicate ((119 - msg.length % 64) % 64) 0
      ++ be8 (8 * msg.length)

/-- Split a byte list (whose length is a multiple of 64) into 64-byte blocks. -/
def blocksOf (l : List Nat) : List (List Nat) :=
  (List.range (l.length / 64)).map fun i => (l.drop (64 * i)).take 64

/-- Serialize the final state to the 32 digest bytes. -/
def digestBytes (d : Digest) : List Nat :=
  wordBE d.h0 ++ wordBE d.h1 ++ wordBE d.h2 ++ wordBE d.h3 ++
  wordBE d.h4 ++ wordBE d.h5 ++ wordBE d.h6 ++ wordBE d.h7

/-- SHA-256 of a byte string, as 32 bytes. -/
def sha256 (msg : List Nat) : List Nat :=
  digestBytes ((blocksOf (pad msg)).foldl compress initDigest)

/-- XOR a key block (padded with zeros to 64 bytes) with a pad byte. -/
def xorPad (k : List Nat) (p : Nat) : List Nat :=
  (k ++ List.replicate (64 - k.length) 0).map fun b => b ^^^ p

/-- HMAC-SHA256 (RFC 2104): `key` is the MAC key, `msg` the message. -/
def hmacSha256 (key msg : List Nat) : List Nat :=
  let k := if 64 < key.length then sha256 key else key
  sha256 (xorPad k 92 ++ sha256 (xorPad k 54 ++ msg))

/-- Byte-by-byte XOR, truncating to the shorter list — the semantics of
`bytes(p ^ q for p, q in zip(a, b))`. -/
def zipXor (a b : List Nat) : List Nat := (a.zip b).map fun p => p.1 ^^^ p.2

/-- The PBKDF2 block function `F(password, salt, c, i)` for HMAC-SHA256. -/
def pbkdf2Block (password salt : List Nat) (c i : Nat) : List Nat :=
  let u1 := hmacSha256 password (salt ++ wordBE i)
  ((List.range (c - 1)).foldl
    (fun acc _ => let u := hmacSha256 password acc.2; (zipXor acc.1 u, u))
    (u1, u1)).1

/-- PBKDF2-HMAC-SHA256 (RFC 2898) with `c` iterations and `dklen` output
bytes; the source always calls it with `dklen = 32`. -/
def pbkdf2_hmac (password salt : List Nat) (c dklen : Nat) : List Nat :=
  (((List.range ((dklen + 31) / 32)).map
    fun i => pbkdf2Block password salt c (i + 1)).flatten).take dklen

/-- The byte values of an ASCII string — the effect of Python's
`.encode("ascii")` (and of `.encode("utf-8")` on ASCII text). -/
def asciiEncode (s : String) : List Nat := s.data.map Char.toNat

/-- Lowercase hex digit of a value below 16. -/
def hexChar (n : Nat) : Char :=
  if n < 10 then Char.ofNat (48 + n) else Char.ofNat (87 + n)

/-- Two lowercase hex digits per byte, as `bytes.hex()` produces. -/
def bytesToHexChars : List Nat → List Char
  | [] => []
  | b :: bs => hexChar (b / 16 % 16) :: hexChar (b % 16) :: bytesToHexChars bs

/-- Python `bytes.hex()`: the lowercase hex string of a byte string. -/
def bytesToHex (bs : List Nat) : String := String.mk (bytesToHexChars bs)

/-- Value of one hex digit, `none` for a non-hex character. -/
def hexVal (c : Char) : Option Nat :=
  if 48 ≤ c.toNat ∧ c.toNat ≤ 57 then some (c.toNat - 48)
  else if 97 ≤ c.toNat ∧ c.toNat ≤ 102 then some (c.toNat - 87)
  else if 65 ≤ c.toNat ∧ c.toNat ≤ 70 then some (c.toNat - 55)
  else none

/-- Pair up hex digits into bytes; `none` on an odd count or a bad digit. -/
def hexDecodeList : List Char → Option (List Nat)
  | [] => some []
  | [_] => none
  | a :: b :: rest => do
      let x ← hexVal a
      let y ← hexVal b
      let r ← hexDecodeList rest
      pure ((16 * x + y) :: r)

/-- Python `bytes.fromhex(s)`: `none` models the `ValueError` it raises. -/
def hexDecode (s : String) : Option (List Nat) := hexDecodeList s.data

/-! ## The proof computation of `HWRouter.login_do_proof`

`login_do_proof_compute` mirrors the computation lines of the source
method, line by line:

```python
password = _pbkdf2_hmac("sha256", self.__password.encode("utf-8"),
    bytes.fromhex(self.__secrets["salt"]), self.__secrets["iterations"], 32)
clientkey = _new(b"Client Key", password, _sha256).digest()
storekey = _sha256(clientkey).digest()
authmsg = f"..."
clientsig = _new(authmsg.encode("ascii"), storekey, _sha256).digest()
clientproof = bytes(p ^ q for p, q in zip(clientkey, clientsig)).hex()
```

Note that Python's `hmac.new(key, msg, digestmod)` takes the MAC *key*
first: `_new(b"Client Key", password, _sha256)` keys the HMAC with the
literal bytes of `"Client Key"` and uses the salted password as the
message, and `_new(authmsg.encode("ascii"), storekey, _sha256)` keys it
with the ASCII auth message and uses `storekey` as the message. The
`password` parameter below stands for the UTF-8 bytes of the password and
the `salt` parameter for the raw bytes decoded from the hexadecimal salt. -/

/-- The intermediates and result of the source's proof computation. -/
structure ProofComputation where
  saltedpassword : List Nat
  clientkey : List Nat
  storekey : List Nat
  authmsg : String
  clientsig : List Nat
  clientproof : String

/-- The bytes literal `b"Client Key"`. -/
def clientKeyLiteral : List Nat := asciiEncode "Client Key"

/-- The computation lines of `HWRouter.login_do_proof`, verbatim. -/
def login_do_proof_compute (password salt : List Nat) (iterations : Nat)
    (firstnonce servernonce : String) : ProofComputation :=
  let password' := pbkdf2_hmac password salt iterations 32
  let clientkey := hmacSha256 clientKeyLiteral password'
  let storekey := sha256 clientkey
  let authmsg := firstnonce ++ "," ++ servernonce ++ "," ++ servernonce
  let clientsig := hmacSha256 (asciiEncode authmsg) storekey
  let clientproof := bytesToHex (zipXor clientkey clientsig)
  ⟨password', clientkey, storekey, authmsg, clientsig, clientproof⟩

/-! ## JSON values and the secrets dictionary

`self.__secrets` is a Python `dict`; JSON responses are parsed into dicts
as well. Both are modelled as association lists with most-recent-first
lookup, which is observationally the same as a dict under `get`/`update`.
`JValue` covers the scalar JSON values the handshake manipulates. -/

/-- A scalar JSON value, with Python truthiness. -/
inductive JValue where
  | null
  | bool (b : Bool)
  | num (n : Int)
  | str (s : String)
deriving DecidableEq

/-- Python truthiness of a value: `not v` in the source is `!truthy v`. -/
def truthy : JValue → Bool
  | .null => false
  | .bool b => b
  | .num n => n != 0
  | .str s => s != ""

/-- The secrets dictionary (and parsed JSON bodies). -/
abbrev Store := List (String × JValue)

/-- Python `d.get(k)`: first binding of `k`, `none` when absent. -/
def jget : Store → String → Option JValue
  | [], _ => none
  | (k', v) :: rest, k => if k' = k then some v else jget rest k

/-- Truthiness of a `d.get(k)` result (`None` is falsy). -/
def truthyOpt : Option JValue → Bool
  | none => false
  | some v => truthy v

/-- Python `d[k] = v`: bind `k` to `v`, shadowing any earlier binding. -/
def setKey (st : Store) (k : String) (v : JValue) : Store := (k, v) :: st

/-- Python `st.update(d)`: bind every pair of `d` into `st`, in order. -/
def updateAll (st : Store) (d : Store) : Store :=
  d.foldl (fun s p => setKey s p.1 p.2) st

/-- The secrets dictionary as `__init__` builds it. -/
def initStore (username password : String) : Store :=
  [("username", .str username), ("password", .str password)]

/-! ## The three stages

Each stage's single HTTP exchange is a capability external to the
repository, so the stage functions take the response as input: the CSRF
stage takes the status and the result of the `re.search` call on the body
(`none` when the pattern does not match), the POST stages take the status
and the parsed JSON body. A Python exception is an `Except.error`. -/

/-- Source method `login_do_csrf`: on status 200 store the two captured tokens
and succeed; on any other status return `False`. When the status is 200
but the pattern did not match, `match[1]` subscripts `None` and raises
`TypeError`. -/
def login_do_csrf (status : Nat) (matched : Option (String × String))
    (st : Store) : Except String (Bool × Store) :=
  if status = 200 then
    match matched with
    | some pt =>
        .ok (true, setKey (setKey st "csrf_param" (.str pt.1))
                     "csrf_token" (.str pt.2))
    | none => .error "TypeError: NoneType is not subscriptable"
  else .ok (false, st)

/-- Python `uuid4().hex * 2`: the freshly generated client nonce, the 32-char
uuid hex string repeated twice. -/
def genFirstnonce (u : String) : String := u ++ u

/-- Source method `login_do_nonce`: store the generated `firstnonce`, POST, and
on status 200 with no truthy `err`/`errcode` merge the whole response into
the secrets and succeed; otherwise return `False`. `u` is the
`uuid4().hex` value drawn for this attempt, `d` the parsed JSON body. -/
def login_do_nonce (status : Nat) (d : Store) (u : String) (st : Store) :
    Bool × Store :=
  let st' := setKey st "firstnonce" (.str (genFirstnonce u))
  if status = 200 then
    if !truthyOpt (jget d "err") && !truthyOpt (jget d "errcode") then
      (true, updateAll st' d)
    else (false, st')
  else (false, st')

/-- Source method `login_do_proof`: read `salt`, `iterations`, `firstnonce` and
`servernonce` from the secrets (a missing key raises `KeyError`, a
non-hexadecimal salt raises `ValueError` in `bytes.fromhex`, a
non-positive iteration count raises `ValueError` in `pbkdf2_hmac`),
run the proof computation, POST it, and succeed on status 200 with no
truthy `err`/`errcode`. Returns the outcome and the posted `clientproof`. -/
def login_do_proof (status : Nat) (d : Store) (password : String)
    (st : Store) : Except String (Bool × String) :=
  match jget st "salt" with
  | none => .error "KeyError: salt"
  | some (JValue.str salthex) =>
    match hexDecode salthex with
    | none => .error "ValueError: non-hexadecimal number found in fromhex"
    | some saltbytes =>
      match jget st "iterations" with
      | none => .error "KeyError: iterations"
      | some (JValue.num iters) =>
        if iters ≤ 0 then
          .error "ValueError: iteration value must be greater than 0"
        else
          match jget st "firstnonce" with
          | none => .error "KeyError: firstnonce"
          | some (JValue.str fn) =>
            match jget st "servernonce" with
            | none => .error "KeyError: servernonce"
            | some (JValue.str sn) =>
              let comp := login_do_proof_compute (asciiEncode password)
                saltbytes iters.toNat fn sn
              if status = 200 then
                .ok (!truthyOpt (jget d "err") &&
                      !truthyOpt (jget d "errcode"), comp.clientproof)
              else .ok (false, comp.clientproof)
            | some _ => .error "TypeError: servernonce is not a string"
          | some _ => .error "TypeError: firstnonce is not a string"
      | some _ => .error "TypeError: iterations is not an integer"
  | some _ => .error "TypeError: fromhex requires a string"

/-! ## The orchestrator `HWRouter.__aenter__`

```python
self.__logged_in = (await self.login_do_csrf() and
    await self.login_do_nonce() and await self.login_do_proof())
```

Python `and` short-circuits, and an exception in a stage propagates out of
`__aenter__` before the later stages run. A run is determined by the three
responses the device would give (one per stage) and the uuid drawn for the
nonce; `RunResult` records which stages actually performed their exchange,
the secrets visible to the proof stage when it starts (if it starts), and
the outcome (`Except.error` for a propagated exception, otherwise the
final `logged_in` boolean). -/

/-- The three stages of the handshake. -/
inductive Stage where
  | csrf
  | nonce
  | proof
deriving DecidableEq

/-- The observable trace of one handshake run. -/
structure RunResult where
  executed : List Stage
  proofEntryStore : Option Store
  outcome : Except String Bool
  finalStore : Store

/-- One run of the handshake: `cs`/`cm` the CSRF response status and regex
match, `ns`/`nd` the nonce response status and JSON body, `u` the
`uuid4().hex` drawn, `ps`/`pd` the proof response status and JSON body. -/
def runHandshake (cs : Nat) (cm : Option (String × String))
    (ns : Nat) (nd : Store) (u : String) (ps : Nat) (pd : Store)
    (username password : String) : RunResult :=
  match login_do_csrf cs cm (initStore username password) with
  | .error e => ⟨[.csrf], none, .error e, initStore username password⟩
  | .ok (false, st1) => ⟨[.csrf], none, .ok false, st1⟩
  | .ok (true, st1) =>
    match login_do_nonce ns nd u st1 with
    | (false, st2) => ⟨[.csrf, .nonce], none, .ok false, st2⟩
    | (true, st2) =>
      match login_do_proof ps pd password st2 with
      | .error e => ⟨[.csrf, .nonce, .proof], some st2, .error e, st2⟩
      | .ok bp => ⟨[.csrf, .nonce, .proof], some st2, .ok bp.1, st2⟩

/-! ## The client nonce `uuid4().hex * 2`

`uuid4()` draws 128 random bits and overwrites six of them: the four
version bits are forced to `0100` and the two variant bits to `10`
(RFC 4122); `.hex` renders the result as 32 zero-padded lowercase hex
digits. `uuid4Int`/`uuid4Hex` map the 128 raw random bits `r` to that
string, following CPython's `UUID(bytes=..., version=4)`. -/

/-- Force the variant and version bits of a 128-bit value, as the CPython
`uuid.UUID` constructor does for version 4. -/
def uuid4Int (r : Nat) : Nat :=
  let x := r % 2 ^ 128
  let x := (x &&& (2 ^ 128 - 1 - 0xc000 * 2 ^ 48)) ||| 0x8000 * 2 ^ 48
  (x &&& (2 ^ 128 - 1 - 0xf000 * 2 ^ 64)) ||| 0x4000 * 2 ^ 64

/-- The `len`-digit zero-padded lowercase big-endian hex of `n`. -/
def hexDigitsPad : Nat → Nat → List Char
  | 0, _ => []
  | len + 1, n => hexDigitsPad len (n / 16) ++ [hexChar (n % 16)]

/-- The string `uuid4(...).hex` for raw random bits `r`: 32 hex digits. -/
def uuid4Hex (r : Nat) : String := String.mk (hexDigitsPad 32 (uuid4Int r))

/-- Whether a character is a lowercase hex digit. -/
def isHexChar (c : Char) : Bool :=
  (48 ≤ c.toNat && c.toNat ≤ 57) || (97 ≤ c.toNat && c.toNat ≤ 102)

/-! ## Spec-side formulas for the refinement claims

The spec states `clientKey = HMAC-SHA256(key = saltedPassword, message =
b"Client Key")` and `clientSignature = HMAC-SHA256(key = storedKey,
message = authMessage encoded as ASCII)`. These definitions follow those
words, to be compared with the computation the source performs. -/

/-- The spec's words for `clientKey`: the salted password as the HMAC key,
`b"Client Key"` as the message. -/
def spec_clientkey (password salt : List Nat) (iterations : Nat) : List Nat :=
  hmacSha256 (pbkdf2_hmac password salt iterations 32) clientKeyLiteral

/-- The spec's words for `clientSignature`: `storedKey` as the HMAC key,
the ASCII auth message as the message. -/
def spec_clientsig (storekey : List Nat) (authmsg : String) : List Nat :=
  hmacSha256 storekey (asciiEncode authmsg)

/-! ## Validation of the primitives against published test vectors -/

/-- FIPS 180-4 test vector: SHA-256 of `"abc"`. -/
theorem sha256_vector_abc :
    bytesToHex (sha256 (asciiEncode "abc")) =
      "ba7816bf8f01cfea414140de5dae2223b00361a396177a9cb410ff61f20015ad" := by
  decide

/-- RFC 4231 test case 2: HMAC-SHA256 with key `"Jefe"` and message
`"what do ya want for nothing?"`. -/
theorem hmac_vector_rfc4231 :
    bytesToHex (hmacSha256 (asciiEncode "Jefe")
        (asciiEncode "what do ya want for nothing?")) =
      "5bdcc146bf60754e6a042426089575c75a003f089d2739839dec58b964ec3843" := by
  decide

/-- RFC 7677 / standard PBKDF2-HMAC-SHA256 vector: password `"password"`,
salt `"salt"`, 1 iteration, 32 bytes. -/
theorem pbkdf2_vector_one_iteration :
    bytesToHex (pbkdf2_hmac (asciiEncode "password") (asciiEncode "salt") 1 32) =
      "120fb6cffcf8b32c43e7225256c4f837a86548c92ccc35480805987cb70be17b" := by
  decide

/-- Standard PBKDF2-HMAC-SHA256 vector with 2 iterations, exercising the
XOR-accumulation loop. -/
theorem pbkdf2_vector_two_iterations :
    bytesToHex (pbkdf2_hmac (asciiEncode "password") (asciiEncode "salt") 2 32) =
      "ae4d0c95af6b46d32d0adff928f06dd02a303f8ef3c251dfd6e2d85a95474c43" := by
  decide

/-! ## Helper lemmas -/

theorem digestBytes_length (d : Digest) : (digestBytes d).length = 32 := by
  simp [digestBytes, wordBE]

theorem sha256_length (msg : List Nat) : (sha256 msg).length = 32 :=
  digestBytes_length _

theorem hmacSha256_length (key msg : List Nat) :
    (hmacSha256 key msg).length = 32 :=
  sha256_length _

theorem zipXor_length (a b : List Nat) :
    (zipXor a b).length = min a.length b.length := by
  simp [zipXor]

theorem bytesToHexChars_length (bs : List Nat) :
    (bytesToHexChars bs).length = 2 * bs.length := by
  induction bs with
  | nil => rfl
  | cons b bs ih => simp [bytesToHexChars, ih]; ring

theorem bytesToHex_data_length (bs : List Nat) :
    (bytesToHex bs).data.length = 2 * bs.length :=
  bytesToHexChars_length bs

theorem jget_setKey_self (st : Store) (k : String) (v : JValue) :
    jget (setKey st k v) k = some v := by
  simp [setKey, jget]

theorem jget_setKey_ne (st : Store) (k k' : String) (v : JValue)
    (h : k ≠ k') : jget (setKey st k v) k' = jget st k' := by
  simp [setKey, jget, h]

theorem jget_updateAll_isSome_left (d : Store) :
    ∀ st k, (jget st k).isSome = true →
      (jget (updateAll st d) k).isSome = true := by
  induction d with
  | nil => intro st k h; exact h
  | cons p rest ih =>
    intro st k h
    refine ih (setKey st p.1 p.2) k ?_
    by_cases hk : p.1 = k
    · subst hk; rw [jget_setKey_self]; rfl
    · rw [jget_setKey_ne _ _ _ _ hk]; exact h

theorem jget_updateAll_isSome_right (d : Store) :
    ∀ st k, (jget d k).isSome = true →
      (jget (updateAll st d) k).isSome = true := by
  induction d with
  | nil => intro st k h; simp [jget] at h
  | cons p rest ih =>
    intro st k h
    by_cases hk : p.1 = k
    · subst hk
      refine jget_updateAll_isSome_left rest (setKey st p.1 p.2) p.1 ?_
      rw [jget_setKey_self]; rfl
    · refine ih (setKey st p.1 p.2) k ?_
      obtain ⟨k1, v1⟩ := p
      simp only [jget, if_neg hk] at h
      exact h

theorem hexDigitsPad_length (len : Nat) :
    ∀ n, (hexDigitsPad len n).length = len := by
  induction len with
  | zero => intro n; rfl
  | succ m ih => intro n; simp [hexDigitsPad, ih]

theorem isHexChar_hexChar_mod (n : Nat) : isHexChar (hexChar (n % 16)) = true := by
  have h : n % 16 < 16 := Nat.mod_lt _ (by decide)
  revert h
  generalize n % 16 = m
  intro h
  interval_cases m <;> decide

theorem hexDigitsPad_all_hex (len : Nat) :
    ∀ n, (hexDigitsPad len n).all isHexChar = true := by
  induction len with
  | zero => intro n; rfl
  | succ m ih =>
    intro n
    simp [hexDigitsPad, List.all_append, ih, isHexChar_hexChar_mod]

/-! ## Claim theorems -/

/-- C1, counterexample: at password bytes `"pw"`, salt bytes `[1, 2]` and
one iteration, the `clientkey` the source computes differs from
`HMAC-SHA256(key = PBKDF2-HMAC-SHA256(password, salt, 1, 32), message =
b"Client Key")` — `hmac.new(key, msg)` takes the key first, so the source
keys the HMAC with `b"Client Key"`, not with the salted password. -/
theorem c1_clientkey_cex :
    (login_do_proof_compute (asciiEncode "pw") [1, 2] 1 "n1" "n2").clientkey
      ≠ spec_clientkey (asciiEncode "pw") [1, 2] 1 := by
  decide

/-- C1, amended: for every password, salt, iteration count and nonce pair,
the computed `clientkey` is HMAC-SHA256 with the literal bytes
`b"Client Key"` as the HMAC *key* and the salted password
`PBKDF2-HMAC-SHA256(password, salt, iterations, 32)` as the *message* —
the two HMAC arguments are the reverse of what the spec states. -/
theorem c1_clientkey_eq (password salt : List Nat) (iterations : Nat)
    (fn sn : String) :
    (login_do_proof_compute password salt iterations fn sn).clientkey
      = hmacSha256 clientKeyLiteral
          (pbkdf2_hmac password salt iterations 32) := rfl

set_option maxHeartbeats 4000000 in
/-- C2, counterexample: at the same concrete inputs, the `clientsig` the
source computes differs from `HMAC-SHA256(key = storedKey, message =
authMessage encoded as ASCII)` — the source keys the HMAC with the ASCII
auth message and passes `storekey` as the message. -/
theorem c2_clientsig_cex :
    (login_do_proof_compute (asciiEncode "pw") [1, 2] 1 "n1" "n2").clientsig
      ≠ spec_clientsig
          (login_do_proof_compute (asciiEncode "pw") [1, 2] 1 "n1" "n2").storekey
          (login_do_proof_compute (asciiEncode "pw") [1, 2] 1 "n1" "n2").authmsg := by
  decide

/-- C2, amended: for every input, the computed `clientsig` is HMAC-SHA256
with the ASCII-encoded auth message as the HMAC *key* and `storekey` as
the *message* — the two HMAC arguments are the reverse of what the spec
states. -/
theorem c2_clientsig_eq (password salt : List Nat) (iterations : Nat)
    (fn sn : String) :
    (login_do_proof_compute password salt iterations fn sn).clientsig
      = hmacSha256
          (asciiEncode (login_do_proof_compute password salt iterations fn sn).authmsg)
          (login_do_proof_compute password salt iterations fn sn).storekey := rfl

/-- C3: for every client nonce and server nonce, the auth message is
exactly the client nonce, a comma, the server nonce, a comma, and the
server nonce again — the server nonce appears twice and there are no
other separators or fields. -/
theorem c3_authmsg_eq (password salt : List Nat) (iterations : Nat)
    (fn sn : String) :
    (login_do_proof_compute password salt iterations fn sn).authmsg
      = fn ++ "," ++ sn ++ "," ++ sn := rfl

/-- C9: for every input, `clientproof` is the hex encoding of the
byte-by-byte XOR of `clientkey` and `clientsig`; both operands are 32
bytes by construction, and the resulting hex string is exactly 64
characters long. -/
theorem c9_clientproof_xor_hex (password salt : List Nat) (iterations : Nat)
    (fn sn : String) :
    (login_do_proof_compute password salt iterations fn sn).clientproof
      = bytesToHex (zipXor
          (login_do_proof_compute password salt iterations fn sn).clientkey
          (login_do_proof_compute password salt iterations fn sn).clientsig)
    ∧ (login_do_proof_compute password salt iterations fn sn).clientkey.length = 32
    ∧ (login_do_proof_compute password salt iterations fn sn).clientsig.length = 32
    ∧ (login_do_proof_compute password salt iterations fn sn).clientproof.data.length
        = 64 := by
  have hk : (login_do_proof_compute password salt iterations fn sn).clientkey.length
      = 32 := hmacSha256_length _ _
  have hs : (login_do_proof_compute password salt iterations fn sn).clientsig.length
      = 32 := hmacSha256_length _ _
  have h1 : (login_do_proof_compute password salt iterations fn sn).clientproof.data.length
      = 2 * (zipXor
          (login_do_proof_compute password salt iterations fn sn).clientkey
          (login_do_proof_compute password salt iterations fn sn).clientsig).length :=
    bytesToHex_data_length _
  refine ⟨rfl, hk, hs, ?_⟩
  rw [h1, zipXor_length, hk, hs]
  decide

/-- C4, counterexample: on a 200 response whose body does not contain the
token pattern (`re.search` returns `None`), the CSRF stage does not return
`False` — it raises, because `match[1]` subscripts `None`. -/
theorem c4_csrf_raises_cex :
    login_do_csrf 200 none (initStore "admin" "secret")
      = Except.error "TypeError: NoneType is not subscriptable" := rfl

/-- C4, amended: the CSRF stage returns `False` (without raising) on every
non-200 response, returns `True` and stores the two tokens on a 200
response whose body matches the pattern, but on a 200 response whose body
fails to contain both tokens it raises a `TypeError` instead of reporting
failure. -/
theorem c4_csrf_behavior (status : Nat) (m : Option (String × String))
    (st : Store) :
    (status ≠ 200 → login_do_csrf status m st = .ok (false, st))
    ∧ (∀ p t, status = 200 → m = some (p, t) →
        login_do_csrf status m st
          = .ok (true, setKey (setKey st "csrf_param" (.str p))
                         "csrf_token" (.str t)))
    ∧ (status = 200 → m = none →
        login_do_csrf status m st
          = .error "TypeError: NoneType is not subscriptable") := by
  refine ⟨?_, ?_, ?_⟩
  · intro h; simp [login_do_csrf, h]
  · intro p t hs hm; subst hs; subst hm; simp [login_do_csrf]
  · intro hs hm; subst hs; subst hm; simp [login_do_csrf]

/-- C4 witness: a concrete non-200 response on which the stage reports
failure without raising. -/
theorem c4_csrf_behavior_witness :
    login_do_csrf 404 none (initStore "admin" "secret")
      = .ok (false, initStore "admin" "secret") :=
  (c4_csrf_behavior 404 none (initStore "admin" "secret")).1 (by decide)

/-- C5, counterexample: a reachable run — CSRF succeeds, the nonce
response is HTTP 200 with the empty JSON object — in which the orchestrator
invokes the proof stage although `salt` is absent from the secret store at
that point (the run then dies with a `KeyError`, not with a clean failure). -/
theorem c5_proof_without_salt_cex :
    (runHandshake 200 (some ("p", "t")) 200 [] "u" 200 [] "admin" "secret").executed
        = [Stage.csrf, Stage.nonce, Stage.proof]
    ∧ ((runHandshake 200 (some ("p", "t")) 200 [] "u" 200 [] "admin"
          "secret").proofEntryStore.map fun st => jget st "salt")
        = some none
    ∧ (runHandshake 200 (some ("p", "t")) 200 [] "u" 200 [] "admin"
          "secret").outcome = .error "KeyError: salt" := by
  refine ⟨by decide, by decide, rfl⟩

/-- Shape of the store after a successful nonce stage. -/
theorem login_do_nonce_true_store (ns : Nat) (nd : Store) (u : String)
    (st1 st2 : Store) (hn : login_do_nonce ns nd u st1 = (true, st2)) :
    st2 = updateAll (setKey st1 "firstnonce" (.str (genFirstnonce u))) nd := by
  simp only [login_do_nonce] at hn
  split at hn
  · split at hn
    · simp only [Prod.mk.injEq] at hn
      exact hn.2.symm
    · simp at hn
  · simp at hn

/-- C5, amended: whenever the orchestrator invokes the proof stage, the
client nonce (`firstnonce`) is present in the secret store, and each of
`salt`, `iterations` and `servernonce` is present *provided the nonce
response contained it* — but nothing forces a 200 no-error nonce response
to contain them, so the original claim's guarantee does not hold
unconditionally (see the counterexample). -/
theorem c5_proof_preconditions (cs : Nat) (cm : Option (String × String))
    (ns : Nat) (nd : Store) (u : String) (ps : Nat) (pd : Store)
    (un pw : String) (st : Store)
    (h : (runHandshake cs cm ns nd u ps pd un pw).proofEntryStore = some st) :
    (jget st "firstnonce").isSome = true
    ∧ ((jget nd "salt").isSome = true → (jget st "salt").isSome = true)
    ∧ ((jget nd "iterations").isSome = true →
        (jget st "iterations").isSome = true)
    ∧ ((jget nd "servernonce").isSome = true →
        (jget st "servernonce").isSome = true) := by
  unfold runHandshake at h
  cases hc : login_do_csrf cs cm (initStore un pw) with
  | error e => rw [hc] at h; simp at h
  | ok p =>
    rw [hc] at h
    obtain ⟨b, st1⟩ := p
    cases b with
    | false => simp at h
    | true =>
      simp at h
      cases hn : login_do_nonce ns nd u st1 with
      | mk b2 st2 =>
        rw [hn] at h
        cases b2 with
        | false => simp at h
        | true =>
          simp at h
          have hst2 : st2
              = updateAll (setKey st1 "firstnonce"
                  (.str (genFirstnonce u))) nd :=
            login_do_nonce_true_store ns nd u st1 st2 hn
          have hst : st = st2 := by
            cases hp : login_do_proof ps pd pw st2 with
            | error e => rw [hp] at h; simp at h; exact h.symm
            | ok bp => rw [hp] at h; simp at h; exact h.symm
          subst hst
          subst hst2
          refine ⟨?_, ?_, ?_, ?_⟩
          · refine jget_updateAll_isSome_left nd _ _ ?_
            rw [jget_setKey_self]; rfl
          · intro hx; exact jget_updateAll_isSome_right nd _ _ hx
          · intro hx; exact jget_updateAll_isSome_right nd _ _ hx
          · intro hx; exact jget_updateAll_isSome_right nd _ _ hx

/-- C5 witness: a concrete well-formed run — the nonce response carries
`salt`, `iterations` and `servernonce` — in which the store seen by the
proof stage holds all four fields. -/
theorem c5_proof_preconditions_witness :
    (jget [("servernonce", JValue.str "b"), ("iterations", JValue.num 1),
        ("salt", JValue.str "0a"), ("firstnonce", JValue.str "uu"),
        ("csrf_token", JValue.str "t"), ("csrf_param", JValue.str "p"),
        ("username", JValue.str "admin"), ("password", JValue.str "secret")]
      "firstnonce").isSome = true
    ∧ ((jget [("salt", JValue.str "0a"), ("iterations", JValue.num 1),
          ("servernonce", JValue.str "b")] "salt").isSome = true →
        (jget [("servernonce", JValue.str "b"), ("iterations", JValue.num 1),
            ("salt", JValue.str "0a"), ("firstnonce", JValue.str "uu"),
            ("csrf_token", JValue.str "t"), ("csrf_param", JValue.str "p"),
            ("username", JValue.str "admin"), ("password", JValue.str "secret")]
          "salt").isSome = true)
    ∧ ((jget [("salt", JValue.str "0a"), ("iterations", JValue.num 1),
          ("servernonce", JValue.str "b")] "iterations").isSome = true →
        (jget [("servernonce", JValue.str "b"), ("iterations", JValue.num 1),
            ("salt", JValue.str "0a"), ("firstnonce", JValue.str "uu"),
            ("csrf_token", JValue.str "t"), ("csrf_param", JValue.str "p"),
            ("username", JValue.str "admin"), ("password", JValue.str "secret")]
          "iterations").isSome = true)
    ∧ ((jget [("salt", JValue.str "0a"), ("iterations", JValue.num 1),
          ("servernonce", JValue.str "b")] "servernonce").isSome = true →
        (jget [("servernonce", JValue.str "b"), ("iterations", JValue.num 1),
            ("salt", JValue.str "0a"), ("firstnonce", JValue.str "uu"),
            ("csrf_token", JValue.str "t"), ("csrf_param", JValue.str "p"),
            ("username", JValue.str "admin"), ("password", JValue.str "secret")]
          "servernonce").isSome = true) :=
  c5_proof_preconditions 200 (some ("p", "t")) 200
    [("salt", JValue.str "0a"), ("iterations", JValue.num 1),
     ("servernonce", JValue.str "b")] "u" 200 [] "admin" "secret"
    [("servernonce", JValue.str "b"), ("iterations", JValue.num 1),
     ("salt", JValue.str "0a"), ("firstnonce", JValue.str "uu"),
     ("csrf_token", JValue.str "t"), ("csrf_param", JValue.str "p"),
     ("username", JValue.str "admin"), ("password", JValue.str "secret")]
    (by decide)

/-- C6, counterexample: a 200 nonce response whose JSON *contains* an
`err` field (with the falsy value `0`) on which the stage nevertheless
succeeds, and it succeeds although the response carries none of `salt`,
`iterations`, `servernonce` — the code checks only Python truthiness of
`err`/`errcode` and never checks the three fields. -/
theorem c6_nonce_cex :
    (login_do_nonce 200 [("err", JValue.num 0)] "u"
        (initStore "admin" "secret")).1 = true
    ∧ jget [("err", JValue.num 0)] "salt" = none
    ∧ jget ((login_do_nonce 200 [("err", JValue.num 0)] "u"
        (initStore "admin" "secret")).2) "salt" = none := by
  refine ⟨rfl, rfl, rfl⟩

/-- C6, amended: the nonce stage reports success if and only if the HTTP
status is 200 and neither `err` nor `errcode` is present with a truthy
value; presence of `salt`, `iterations` and `servernonce` is not part of
the success condition. -/
theorem c6_nonce_success_iff (status : Nat) (d : Store) (u : String)
    (st : Store) :
    (login_do_nonce status d u st).1 = true
      ↔ status = 200 ∧ truthyOpt (jget d "err") = false
          ∧ truthyOpt (jget d "errcode") = false := by
  by_cases hs : status = 200
  · subst hs
    by_cases h1 : truthyOpt (jget d "err")
    · simp [login_do_nonce, h1]
    · by_cases h2 : truthyOpt (jget d "errcode")
      · simp [login_do_nonce, h1, h2]
      · simp [login_do_nonce, h1, h2]
  · simp [login_do_nonce, hs]

/-- C7, counterexample: two distinct draws of the 128 random bits feeding
`uuid4` — `0` and `0xf000 * 2 ^ 64`, which differ exactly in the four bits
the version field overwrites — produce identical client nonces, so the
64-hex-character nonce cannot carry 128 bits of randomness (it carries the
122 bits `uuid4` leaves random, repeated). -/
theorem c7_nonce_entropy_cex :
    genFirstnonce (uuid4Hex 0) = genFirstnonce (uuid4Hex (0xf000 * 2 ^ 64))
    ∧ (0 : Nat) ≠ 0xf000 * 2 ^ 64
    ∧ 0xf000 * 2 ^ 64 < 2 ^ 128 := by
  refine ⟨by decide, by decide, by decide⟩

/-- C7, amended: the generated client nonce is a hex string of 64
characters, but it is a 32-hex-character `uuid4` value repeated, so it
carries only the 122 bits of randomness of a single `uuid4` — below the
claimed 128-bit minimum (the counterexample exhibits two distinct 128-bit
random draws with identical nonces). -/
theorem c7_nonce_structure (r : Nat) :
    (genFirstnonce (uuid4Hex r)).data.length = 64
    ∧ (genFirstnonce (uuid4Hex r)).data.all isHexChar = true := by
  have hd : (genFirstnonce (uuid4Hex r)).data
      = hexDigitsPad 32 (uuid4Int r) ++ hexDigitsPad 32 (uuid4Int r) := rfl
  constructor
  · rw [hd, List.length_append, hexDigitsPad_length]
  · rw [hd, List.all_append, hexDigitsPad_all_hex]
    rfl

/-- C8: the orchestrator executes each stage only if the previous stage
succeeded — if the CSRF stage fails (returns `False` or raises), neither
the nonce nor the proof stage performs its exchange, and if the nonce
stage fails, the proof stage does not perform its exchange. -/
theorem c8_short_circuit (cs : Nat) (cm : Option (String × String))
    (ns : Nat) (nd : Store) (u : String) (ps : Nat) (pd : Store)
    (un pw : String) :
    (∀ st1, login_do_csrf cs cm (initStore un pw) = .ok (false, st1) →
        (runHandshake cs cm ns nd u ps pd un pw).executed = [Stage.csrf])
    ∧ (∀ e, login_do_csrf cs cm (initStore un pw) = .error e →
        (runHandshake cs cm ns nd u ps pd un pw).executed = [Stage.csrf])
    ∧ (∀ st1 st2, login_do_csrf cs cm (initStore un pw) = .ok (true, st1) →
        login_do_nonce ns nd u st1 = (false, st2) →
        (runHandshake cs cm ns nd u ps pd un pw).executed
          = [Stage.csrf, Stage.nonce]) := by
  refine ⟨?_, ?_, ?_⟩
  · intro st1 h; simp [runHandshake, h]
  · intro e h; simp [runHandshake, h]
  · intro st1 st2 h hn; simp [runHandshake, h, hn]

/-- C8 witness: a concrete run whose CSRF stage fails (status 500), in
which only the CSRF stage executed. -/
theorem c8_short_circuit_witness :
    (runHandshake 500 none 200 [] "u" 200 [] "admin" "secret").executed
      = [Stage.csrf] :=
  (c8_short_circuit 500 none 200 [] "u" 200 [] "admin" "secret").1
    (initStore "admin" "secret") rfl

/-- C10: for every draw of the 128 random bits, the generated client nonce
is the 32-hex-character `uuid4` value concatenated with itself — its first
32 characters are exactly the uuid hex and so are its last 32. -/
theorem c10_nonce_repeated (r : Nat) :
    (genFirstnonce (uuid4Hex r)).data.take 32 = (uuid4Hex r).data
    ∧ (genFirstnonce (uuid4Hex r)).data.drop 32 = (uuid4Hex r).data := by
  have hd : (genFirstnonce (uuid4Hex r)).data
      = (uuid4Hex r).data ++ (uuid4Hex r).data := rfl
  have hl : (uuid4Hex r).data.length = 32 := hexDigitsPad_length 32 _
  constructor
  · rw [hd, ← hl, List.take_left]
  · rw [hd, ← hl, List.drop_left]

end HWRouter
